import Mathlib

/-!
Verification of `graphql_server/flask/graphqlview.py` (the `GraphQLView` Flask
view class) against its specification.

The module under study is a thin HTTP adapter: it parses the request body per
MIME type, decides between an interactive GraphiQL HTML page and a JSON API
response via content negotiation, dispatches to the external `run_http_query`
collaborator, optionally awaits asynchronous results, and encodes the results
(or a caught `HttpQueryError`) as an HTTP response.

Modelling choices:
- Python values that matter to the adapter (JSON bodies, execution results,
  context mappings) become inductive types below.
- External collaborators living in the `graphql_server` core package
  (`run_http_query`, `load_json_body`) are kept abstract: the adapter theorems
  quantify over them, packaged in the `Collaborators` structure.
- Collaborators whose observable shape the spec fixes
  (`json_encode`, `format_error_default`, `encode_execution_results`) are
  modelled symbolically from the spec, keeping exactly the information the
  adapter's contract mentions (value encoded, pretty flag honoured, single
  object vs array shape).
- `dispatch_request` additionally returns a trace of the collaborator calls it
  makes, so that claims of the form "the adapter calls X with flag Y" are
  directly statable as properties of the trace.
- Exceptions are modelled with `Except`: `HttpQueryError` is the structured
  error the adapter catches, every other exception propagates as `Uncaught`.
-/

/-- A JSON value, the shape of parsed request bodies and encoded results. -/
inductive Json where
  | null : Json
  | bool (b : Bool) : Json
  | num (n : Int) : Json
  | str (s : String) : Json
  | arr (items : List Json) : Json
  | obj (fields : List (String × Json)) : Json

/-- Python `isinstance(x, list)` on a decoded JSON value. -/
def Json.isArr : Json → Bool
  | .arr _ => true
  | _ => false

/-- A GraphQL error as used here: the adapter only ever constructs one from a
message string (`GraphQLError(e.message)`). -/
structure GraphQLError where
  message : String

/-- An execution result from the external engine: opaque data payload plus a
list of field errors. The adapter never inspects it, only serializes it. -/
structure ExecutionResult where
  payload : Json
  errors : List GraphQLError

/-- One element of the list returned by `run_http_query`: Python-side it is
`None`, a plain `ExecutionResult`, or an awaitable resolving to an
`ExecutionResult` (async mode). -/
inductive ExecItem where
  | none : ExecItem
  | result (r : ExecutionResult) : ExecItem
  | awaitable (r : ExecItem) : ExecItem

/-- Model of `graphql.pyutils.is_awaitable`. -/
def is_awaitable : ExecItem → Bool
  | .awaitable _ => true
  | _ => false

/-- The structured HTTP-level error (`graphql_server.HttpQueryError`): message,
HTTP status code, optional extra headers. -/
structure HttpQueryError where
  message : String
  status_code : Nat
  headers : List (String × String)

/-- An exception escaping a collaborator: either the structured
`HttpQueryError`, or any other Python exception (identified by a tag). -/
inductive PyErr where
  | http (e : HttpQueryError) : PyErr
  | other (tag : Nat) : PyErr

/-- An exception that propagates uncaught out of `dispatch_request`. -/
inductive Uncaught where
  | other (tag : Nat) : Uncaught
  | indexError : Uncaught

/-- The request's parsed `Accept` header (Werkzeug's `accept_mimetypes`): the
adapter only uses `best_match` over an offered list and the quality score of
individual MIME types (`accept_mimetypes[mime]`, 0 when absent). Scores are
kept abstract as naturals; only their order matters to the adapter. -/
structure AcceptMimetypes where
  best_match : List String → Option String
  quality : String → Nat

/-- The inbound Flask request, restricted to the attributes the view reads.
`data` is the body already UTF-8 decoded; `args` are the query-string
parameters (first-value lookup, like `request.args.get`); `form` are the
decoded form fields. -/
structure Request where
  method : String
  mimetype : String
  data : String
  form : List (String × String)
  args : List (String × String)
  accept_mimetypes : AcceptMimetypes

/-- A value stored in the execution context mapping. -/
inductive CtxVal where
  | user (tag : Nat) : CtxVal
  | request (r : Request) : CtxVal
  | dataloaders (tag : Nat) : CtxVal

/-- The configured `context` attribute: Python `None`, a `MutableMapping`
(modelled as an insertion-ordered association list), or some other object of
which only the truthiness matters to the view. -/
inductive ContextConfig where
  | mapping (m : List (String × CtxVal)) : ContextConfig
  | nonMapping (truthy : Bool) : ContextConfig

/-- The `GraphQLView` class attributes that participate in request handling
(the configuration is immutable per request). Cosmetic GraphiQL options are
omitted; `schema`, `root_value` and `middleware` are opaque references. -/
structure GraphQLViewCfg where
  schema : Nat
  root_value : Option Nat
  context : Option ContextConfig
  pretty : Bool
  graphiql : Bool
  middleware : Option Nat
  batch : Bool
  subscriptions : Option String
  headers : Option String
  enable_async : Bool
  dataloaders_map_fn : Option (Unit → CtxVal)

/-- The resolved parameters of one execution (`graphql_server.GraphQLParams`). -/
structure GraphQLParams where
  query : Option String
  variables_ : Option String
  operation_name : Option String

/-- Modelled from the spec: the serialized text produced by the encode
function (`encode(value, pretty) -> serialized text, honoring pretty flag`).
Kept symbolic as the encoded value together with the pretty flag it was
serialized with. -/
structure SText where
  value : Json
  pretty : Bool

/-- Modelled from the spec: `json_encode`, the view's default `encode`
collaborator; serializes a value honoring the pretty flag. In the Python
source the `pretty` parameter defaults to a non-pretty encoding when omitted. -/
def json_encode (value : Json) (pretty : Bool) : SText :=
  SText.mk value pretty

/-- Modelled from the spec: `format_error` converts an error into a
structured, serializable representation (`format_error_default`). -/
def format_error_default (e : GraphQLError) : Json :=
  Json.obj [("message", Json.str e.message)]

/-- Serialization of one execution result item, using the configured error
formatter. -/
def execItemJson (format_error : GraphQLError → Json) : ExecItem → Json
  | ExecItem.none => Json.null
  | ExecItem.result r =>
      if r.errors.isEmpty then Json.obj [("data", r.payload)]
      else Json.obj [("data", r.payload), ("errors", Json.arr (r.errors.map format_error))]
  | ExecItem.awaitable _ => Json.null

/-- Modelled from the spec: `encode_execution_results(results, is_batch,
format_error, encode) -> (body, status)`. Packs the execution results into a
single response body: an array of result objects when `is_batch`, the sole
result object otherwise; the status code is derived from error presence (the
exact mapping is owned by this collaborator; 200/400 here). -/
def encode_execution_results (results : List ExecItem) (is_batch : Bool)
    (format_error : GraphQLError → Json) (encode : Json → SText) : SText × Nat :=
  let jsons := results.map (execItemJson format_error)
  let body := if is_batch then Json.arr jsons else jsons.headD Json.null
  let status := if results.all (fun x => match x with
      | ExecItem.result r => r.errors.isEmpty
      | _ => true) then 200 else 400
  (encode body, status)

/-- The data handed to the GraphiQL renderer (`GraphiQLData`). -/
structure GraphiQLData where
  result : SText
  query : Option String
  variables_ : Option String
  operation_name : Option String
  subscription_url : Option String
  headers : Option String

/-- The response returned by the view: a JSON `Response(result, status,
headers, content_type)` or the rendered GraphiQL HTML page (kept symbolic as
the data handed to the renderer). -/
inductive FlaskResponse where
  | json (body : SText) (status : Nat) (headers : List (String × String))
      (content_type : String) : FlaskResponse
  | html (data : GraphiQLData) : FlaskResponse

/-- Whether the response is the interactive-tool HTML page. -/
def FlaskResponse.isHtml : FlaskResponse → Bool
  | .html _ => true
  | .json _ _ _ _ => false

/-- The full argument record the view passes to `run_http_query` (lines
92-105 of the source). -/
structure RunArgs where
  schema : Nat
  request_method : String
  data : Json
  query_data : List (String × String)
  batch_enabled : Bool
  catch_errors : Bool
  root_value : Option Nat
  context_value : List (String × CtxVal)
  middleware : Option Nat
  run_sync : Bool

/-- Modelled from the spec: the abstract external collaborators from the
`graphql_server` core package (not part of this module's source).
`load_json_body` decodes a JSON body or fails with a structured error;
`run_http_query` runs the query/queries, returning execution results (possibly
awaitables in async mode) and resolved per-item parameters, or raises. -/
structure Collaborators where
  load_json_body : String → Except HttpQueryError Json
  run_http_query : RunArgs → Except PyErr (List ExecItem × List GraphQLParams)

/-- One collaborator call observed during `dispatch_request` (ghost
instrumentation; the adapter's code is unchanged by it). -/
inductive Event where
  | runHttpQueryCall (args : RunArgs) : Event
  | encodeResultsCall (results : List ExecItem) (is_batch : Bool) (pretty : Bool) : Event
  | encodeErrorCall (payload : Json) (pretty : Bool) : Event

/-- Python `str.lower()` for the ASCII method names the adapter compares
(structurally recursive so that concrete requests evaluate). -/
def lowerChar (c : Char) : Char :=
  if c.isUpper then Char.ofNat (c.toNat + 32) else c

/-- Lowercasing of an ASCII string, modelling `request.method.lower()`. -/
def lowerStr (s : String) : String :=
  String.mk (s.data.map lowerChar)

/-- Python truthiness of `request.args.get(k)`: `None` and the empty string
are falsy, any other string is truthy. -/
def truthyOptStr : Option String → Bool
  | Option.none => false
  | some s => !s.isEmpty

/-- Truthiness of the configured `context` attribute (`self.context and ...`):
`None` is falsy, a mapping is truthy iff nonempty, other objects carry their
own truthiness. -/
def ctxTruthy : Option ContextConfig → Bool
  | Option.none => false
  | some (ContextConfig.mapping m) => !m.isEmpty
  | some (ContextConfig.nonMapping t) => t

/-- Python `isinstance(self.context, MutableMapping)`. -/
def ctxIsMapping : Option ContextConfig → Bool
  | some (ContextConfig.mapping _) => true
  | _ => false

/-- The underlying association list of a configured mapping context. -/
def ctxMapping : Option ContextConfig → List (String × CtxVal)
  | some (ContextConfig.mapping m) => m
  | _ => []

/-- `GraphQLView.get_root_value` (line 67). -/
def GraphQLView.get_root_value (cfg : GraphQLViewCfg) : Option Nat :=
  cfg.root_value

/-- `GraphQLView.get_middleware` (line 78). -/
def GraphQLView.get_middleware (cfg : GraphQLViewCfg) : Option Nat :=
  cfg.middleware

/-- `GraphQLView.get_context` (lines 70-76): shallow copy of the configured
context when it is a truthy mapping, else a fresh empty dict; then inject
`request` if absent, then (when a dataloader factory is configured) invoke it
and inject `dataloaders` if absent. `dict.update` with a fresh key appends in
insertion order. -/
def GraphQLView.get_context (cfg : GraphQLViewCfg) (r : Request) : List (String × CtxVal) :=
  let context :=
    if ctxTruthy cfg.context && ctxIsMapping cfg.context then ctxMapping cfg.context else []
  let context :=
    if (context.lookup "request").isNone then context ++ [("request", CtxVal.request r)]
    else context
  match cfg.dataloaders_map_fn with
  | some fn =>
      if (context.lookup "dataloaders").isNone then
        context ++ [("dataloaders", fn ())]
      else context
  | Option.none => context

/-- `GraphQLView.parse_body` (lines 165-182): dispatch on the request's
declared MIME type. -/
def GraphQLView.parse_body (C : Collaborators) (r : Request) : Except HttpQueryError Json :=
  if r.mimetype = "application/graphql" then
    Except.ok (Json.obj [("query", Json.str r.data)])
  else if r.mimetype = "application/json" then
    C.load_json_body r.data
  else if r.mimetype = "application/x-www-form-urlencoded" ∨ r.mimetype = "multipart/form-data" then
    Except.ok (Json.obj (r.form.map (fun kv => (kv.1, Json.str kv.2))))
  else
    Except.ok (Json.obj [])

/-- `GraphQLView.request_wants_html` (lines 190-193): HTML is chosen only if
it is the best match of the two offered types and its quality score strictly
exceeds that of JSON. -/
def GraphQLView.request_wants_html (r : Request) : Bool :=
  match r.accept_mimetypes.best_match ["application/json", "text/html"] with
  | some best =>
      best == "text/html" &&
        r.accept_mimetypes.quality best > r.accept_mimetypes.quality "application/json"
  | Option.none => false

/-- `GraphQLView.should_display_graphiql` (lines 184-188). -/
def GraphQLView.should_display_graphiql (cfg : GraphQLViewCfg) (r : Request) : Bool :=
  if !cfg.graphiql || (r.args.lookup "raw").isSome then false
  else GraphQLView.request_wants_html r

/-- The `show_graphiql` flag computed at line 112:
`request_method == "get" and self.should_display_graphiql()`. -/
def GraphQLView.show_graphiql (cfg : GraphQLViewCfg) (r : Request) : Bool :=
  (lowerStr r.method) == "get" && GraphQLView.should_display_graphiql cfg r

/-- The argument record built by `GraphQLView.run_http_query` (lines 92-105). -/
def view_run_http_query_args (cfg : GraphQLViewCfg) (r : Request)
    (request_method : String) (data : Json) (catch_errors : Bool) : RunArgs :=
  RunArgs.mk cfg.schema request_method data r.args cfg.batch catch_errors
    (GraphQLView.get_root_value cfg) (GraphQLView.get_context cfg r)
    (GraphQLView.get_middleware cfg) (!cfg.enable_async)

/-- `GraphQLView.run_http_query` (lines 92-105): delegate to the external
`run_http_query` with the view's configuration. -/
def GraphQLView.run_http_query (C : Collaborators) (cfg : GraphQLViewCfg) (r : Request)
    (request_method : String) (data : Json) (catch_errors : Bool) :
    Except PyErr (List ExecItem × List GraphQLParams) :=
  C.run_http_query (view_run_http_query_args cfg r request_method data catch_errors)

/-- Python `ex is None`. -/
def isNoneItem : ExecItem → Bool
  | ExecItem.none => true
  | _ => false

/-- Awaiting an awaitable (`await ex`) yields its final value. -/
def awaitExecItem : ExecItem → ExecItem
  | ExecItem.awaitable x => x
  | e => e

/-- The per-element conditional of the comprehension at lines 84-87:
`ex if ex is None or not is_awaitable(ex) else await ex`. -/
def resolveItem (ex : ExecItem) : ExecItem :=
  if isNoneItem ex || !is_awaitable ex then ex else awaitExecItem ex

/-- `GraphQLView.get_async_execution_results` (lines 81-90): run the query,
then await every pending element of the result list inside a one-shot
`asyncio.run` bridge (pure here), keeping order. -/
def GraphQLView.get_async_execution_results (C : Collaborators) (cfg : GraphQLViewCfg)
    (r : Request) (request_method : String) (data : Json) (catch_errors : Bool) :
    Except PyErr (List ExecItem × List GraphQLParams) :=
  match GraphQLView.run_http_query C cfg r request_method data catch_errors with
  | Except.error e => Except.error e
  | Except.ok (execution_results, all_params) =>
      Except.ok (execution_results.map resolveItem, all_params)

/-- The single-error payload built in the `except HttpQueryError` branch
(line 159): `dict(errors=[self.format_error(parsed_error)])`. -/
def errorsPayload (e : HttpQueryError) : Json :=
  Json.obj [("errors", Json.arr [format_error_default (GraphQLError.mk e.message)])]

/-- The response of the `except HttpQueryError` branch (lines 156-163): the
payload is encoded with the encoder's default (non-pretty) serialization, and
status code and headers come from the raised error. -/
def httpErrorResponse (e : HttpQueryError) : FlaskResponse :=
  FlaskResponse.json (json_encode (errorsPayload e) false) e.status_code e.headers
    "application/json"

/-- `GraphQLView.dispatch_request` (lines 107-163), instrumented with a trace
of collaborator calls. A caught `HttpQueryError` becomes a JSON error
response; any other exception propagates as `Except.error`. -/
def GraphQLView.dispatch_request (C : Collaborators) (cfg : GraphQLViewCfg) (r : Request) :
    Except Uncaught FlaskResponse × List Event :=
  let request_method := (lowerStr r.method)
  match GraphQLView.parse_body C r with
  | Except.error e =>
      (Except.ok (httpErrorResponse e), [Event.encodeErrorCall (errorsPayload e) false])
  | Except.ok data =>
    let show_graphiql := GraphQLView.show_graphiql cfg r
    let catch_errors := show_graphiql
    let pretty := cfg.pretty || show_graphiql || truthyOptStr (r.args.lookup "pretty")
    let runArgs := view_run_http_query_args cfg r request_method data catch_errors
    let ev0 := [Event.runHttpQueryCall runArgs]
    let runResult :=
      if cfg.enable_async then
        GraphQLView.get_async_execution_results C cfg r request_method data catch_errors
      else
        GraphQLView.run_http_query C cfg r request_method data catch_errors
    match runResult with
    | Except.error (PyErr.http e) =>
        (Except.ok (httpErrorResponse e),
          ev0 ++ [Event.encodeErrorCall (errorsPayload e) false])
    | Except.error (PyErr.other t) => (Except.error (Uncaught.other t), ev0)
    | Except.ok (execution_results, all_params) =>
      let encoded := encode_execution_results execution_results data.isArr
        format_error_default (fun v => json_encode v pretty)
      let ev1 := ev0 ++ [Event.encodeResultsCall execution_results data.isArr pretty]
      if show_graphiql then
        match all_params with
        | [] => (Except.error Uncaught.indexError, ev1)
        | p :: _ =>
            (Except.ok (FlaskResponse.html
              (GraphiQLData.mk encoded.1 p.query p.variables_ p.operation_name
                cfg.subscriptions cfg.headers)), ev1)
      else
        (Except.ok (FlaskResponse.json encoded.1 encoded.2 [] "application/json"), ev1)

/-! ## Sample fixtures used by the witness theorems -/

/-- An Accept header model giving every MIME type the same score. -/
def acceptTie : AcceptMimetypes :=
  AcceptMimetypes.mk (fun _ => some "text/html") (fun _ => 5)

/-- An Accept header model strictly preferring HTML over JSON. -/
def acceptHtml : AcceptMimetypes :=
  AcceptMimetypes.mk (fun _ => some "text/html")
    (fun m => if m = "text/html" then 10 else 1)

/-- An Accept header model with no acceptable type. -/
def acceptNone : AcceptMimetypes :=
  AcceptMimetypes.mk (fun _ => Option.none) (fun _ => 0)

/-- A GET request whose client scores HTML and JSON equally. -/
def reqTie : Request :=
  Request.mk "GET" "" "" [] [] acceptTie

/-- A POST request with an unrecognized content type and no query parameters. -/
def reqPlainPost : Request :=
  Request.mk "POST" "" "" [] [] acceptNone

/-- Collaborators whose query runner returns one plain result and one set of
resolved parameters, and whose JSON decoder returns an empty object. -/
def collabOne : Collaborators :=
  Collaborators.mk (fun _ => Except.ok (Json.obj []))
    (fun _ => Except.ok ([ExecItem.result (ExecutionResult.mk Json.null [])],
      [GraphQLParams.mk (some "{ hello }") Option.none Option.none]))

/-! ## Claim theorems -/

/-- C1: `request_wants_html` returns true only when `text/html` is the best
match among the two offered types and the client's quality score for
`text/html` strictly exceeds the score for `application/json`; whenever the
two scores are equal it returns false (JSON is chosen). -/
theorem c1_request_wants_html_strict_preference (r : Request) :
    (GraphQLView.request_wants_html r = true ↔
      (r.accept_mimetypes.best_match ["application/json", "text/html"] = some "text/html" ∧
        r.accept_mimetypes.quality "text/html" >
          r.accept_mimetypes.quality "application/json")) ∧
    (r.accept_mimetypes.quality "text/html" = r.accept_mimetypes.quality "application/json" →
      GraphQLView.request_wants_html r = false) := by
  have hmain : GraphQLView.request_wants_html r = true ↔
      (r.accept_mimetypes.best_match ["application/json", "text/html"] = some "text/html" ∧
        r.accept_mimetypes.quality "text/html" >
          r.accept_mimetypes.quality "application/json") := by
    unfold GraphQLView.request_wants_html
    cases h : r.accept_mimetypes.best_match ["application/json", "text/html"] with
    | none => simp
    | some best =>
      simp only [Bool.and_eq_true, beq_iff_eq, decide_eq_true_eq, Option.some.injEq]
      constructor
      · rintro ⟨hb, hq⟩
        subst hb
        exact ⟨rfl, hq⟩
      · rintro ⟨hb, hq⟩
        subst hb
        exact ⟨rfl, hq⟩
  refine ⟨hmain, fun heq => ?_⟩
  cases hw : GraphQLView.request_wants_html r with
  | false => rfl
  | true =>
    rcases hmain.mp hw with ⟨-, hq⟩
    rw [heq] at hq
    exact absurd hq (lt_irrefl _)

/-- Witness for C1 at a concrete request whose client scores both types
equally: HTML is not selected. -/
theorem c1_witness :
    GraphQLView.request_wants_html reqTie = false :=
  (c1_request_wants_html_strict_preference reqTie).2 rfl

/-- C4: `parse_body` produces exactly the documented shape per declared MIME
type: `application/graphql` yields `{"query": <raw body>}`; `application/json`
yields the result of the JSON decoder (propagating its structured error on
malformed input); the two form encodings yield the form-field mapping; any
other or absent content type yields an empty mapping. -/
theorem c4_parse_body_shapes (C : Collaborators) (r : Request) :
    (r.mimetype = "application/graphql" →
      GraphQLView.parse_body C r = Except.ok (Json.obj [("query", Json.str r.data)])) ∧
    (r.mimetype = "application/json" →
      GraphQLView.parse_body C r = C.load_json_body r.data) ∧
    ((r.mimetype = "application/x-www-form-urlencoded" ∨ r.mimetype = "multipart/form-data") →
      GraphQLView.parse_body C r =
        Except.ok (Json.obj (r.form.map (fun kv => (kv.1, Json.str kv.2))))) ∧
    (r.mimetype ≠ "application/graphql" → r.mimetype ≠ "application/json" →
      r.mimetype ≠ "application/x-www-form-urlencoded" → r.mimetype ≠ "multipart/form-data" →
      GraphQLView.parse_body C r = Except.ok (Json.obj [])) := by
  refine ⟨fun h1 => ?_, fun h2 => ?_, fun h3 => ?_, fun h4 h5 h6 h7 => ?_⟩
  · simp [GraphQLView.parse_body, h1]
  · have hne : r.mimetype ≠ "application/graphql" := by
      rw [h2]; decide
    simp [GraphQLView.parse_body, h2, hne]
  · rcases h3 with h3 | h3 <;>
      · have hne1 : r.mimetype ≠ "application/graphql" := by rw [h3]; decide
        have hne2 : r.mimetype ≠ "application/json" := by rw [h3]; decide
        simp [GraphQLView.parse_body, h3, hne1, hne2]
  · simp [GraphQLView.parse_body, h4, h5, h6, h7]

/-- Witness for C4 at a concrete `application/graphql` request. -/
theorem c4_witness :
    GraphQLView.parse_body collabOne
        (Request.mk "POST" "application/graphql" "{ hello }" [] [] acceptNone) =
      Except.ok (Json.obj [("query", Json.str "{ hello }")]) :=
  (c4_parse_body_shapes collabOne
    (Request.mk "POST" "application/graphql" "{ hello }" [] [] acceptNone)).1 rfl

/-- C5: in asynchronous mode, `get_async_execution_results` returns, for the
result list delivered by `run_http_query`, a list of the same length and order
in which every awaitable element has been awaited to its final value, and
every element that is `None` or not awaitable is returned unchanged. -/
theorem c5_async_results_awaited (C : Collaborators) (cfg : GraphQLViewCfg) (r : Request)
    (request_method : String) (data : Json) (catch_errors : Bool)
    (ers : List ExecItem) (ps : List GraphQLParams)
    (h : GraphQLView.run_http_query C cfg r request_method data catch_errors =
      Except.ok (ers, ps)) :
    ∃ outs,
      GraphQLView.get_async_execution_results C cfg r request_method data catch_errors =
        Except.ok (outs, ps) ∧
      outs.length = ers.length ∧
      ∀ i : Nat, outs[i]? = (ers[i]?).map (fun ex =>
        match ex with
        | ExecItem.awaitable x => x
        | e => e) := by
  refine ⟨ers.map resolveItem, ?_, by simp, fun i => ?_⟩
  · unfold GraphQLView.get_async_execution_results
    rw [h]
  · rw [List.getElem?_map]
    cases hi : ers[i]? with
    | none => rfl
    | some ex =>
      cases ex <;> rfl

/-- Witness for C5: a batch of one awaitable, one `None` and one plain result
is returned with the awaitable resolved and the others unchanged. -/
theorem c5_witness :
    ∃ outs,
      GraphQLView.get_async_execution_results
          (Collaborators.mk (fun _ => Except.ok (Json.obj []))
            (fun _ => Except.ok
              ([ExecItem.awaitable (ExecItem.result (ExecutionResult.mk Json.null [])),
                ExecItem.none,
                ExecItem.result (ExecutionResult.mk Json.null [])],
               [GraphQLParams.mk (some "{ hello }") Option.none Option.none])))
          (GraphQLViewCfg.mk 0 Option.none Option.none false false Option.none false
            Option.none Option.none true Option.none)
          reqPlainPost "post" (Json.obj []) false =
        Except.ok (outs,
          [GraphQLParams.mk (some "{ hello }") Option.none Option.none]) ∧
      outs.length =
        [ExecItem.awaitable (ExecItem.result (ExecutionResult.mk Json.null [])),
          ExecItem.none,
          ExecItem.result (ExecutionResult.mk Json.null [])].length ∧
      ∀ i : Nat, outs[i]? =
        ([ExecItem.awaitable (ExecItem.result (ExecutionResult.mk Json.null [])),
          ExecItem.none,
          ExecItem.result (ExecutionResult.mk Json.null [])][i]?).map (fun ex =>
          match ex with
          | ExecItem.awaitable x => x
          | e => e) :=
  c5_async_results_awaited _ _ _ _ _ _ _ _ rfl

/-! ## Association-list helper lemmas (Python dict lookup/update semantics) -/

lemma lookup_append (l1 l2 : List (String × CtxVal)) (k : String) :
    (l1 ++ l2).lookup k =
      match l1.lookup k with
      | some v => some v
      | Option.none => l2.lookup k := by
  induction l1 with
  | nil => simp [List.lookup]
  | cons a t ih =>
    rcases a with ⟨k1, v1⟩
    simp only [List.cons_append, List.lookup]
    cases h : (k == k1) <;> simp [h, ih]

/-- Python `d.update({k: v}) if k not in d` on an insertion-ordered dict. -/
def injectIfAbsent (l : List (String × CtxVal)) (k : String) (v : CtxVal) :
    List (String × CtxVal) :=
  if (l.lookup k).isNone then l ++ [(k, v)] else l

lemma injectIfAbsent_lookup_same (l : List (String × CtxVal)) (k : String) (v : CtxVal) :
    (injectIfAbsent l k v).lookup k = some ((l.lookup k).getD v) := by
  unfold injectIfAbsent
  cases h : l.lookup k with
  | none =>
    simp only [h, Option.isNone_none, if_pos]
    rw [lookup_append, h]
    simp [List.lookup]
  | some w => simp [h]

lemma injectIfAbsent_lookup_other (l : List (String × CtxVal)) (k : String) (v : CtxVal)
    (k2 : String) (h2 : k2 ≠ k) :
    (injectIfAbsent l k v).lookup k2 = l.lookup k2 := by
  unfold injectIfAbsent
  cases h : l.lookup k with
  | none =>
    simp only [h, Option.isNone_none, if_pos]
    rw [lookup_append]
    cases hk : l.lookup k2 with
    | none =>
      have hbe : (k2 == k) = false := beq_eq_false_iff_ne.mpr h2
      simp [List.lookup, hbe]
    | some w => rfl
  | some w => simp [h]

lemma injectIfAbsent_preserve {l : List (String × CtxVal)} {k2 : String} {v2 : CtxVal}
    (h : l.lookup k2 = some v2) (k : String) (v : CtxVal) :
    (injectIfAbsent l k v).lookup k2 = some v2 := by
  unfold injectIfAbsent
  cases hk : l.lookup k with
  | none =>
    simp only [hk, Option.isNone_none, if_pos]
    rw [lookup_append, h]
  | some w => simp [hk, h]

/-- Closed form of `get_context`: the configured mapping (or an empty dict),
then the two conditional injections. The truthiness test in the source is
redundant value-wise: a falsy mapping is the empty mapping. -/
lemma get_context_eq (cfg : GraphQLViewCfg) (r : Request) :
    GraphQLView.get_context cfg r =
      (match cfg.dataloaders_map_fn with
       | some fn =>
          injectIfAbsent (injectIfAbsent (ctxMapping cfg.context) "request" (CtxVal.request r))
            "dataloaders" (fn ())
       | Option.none =>
          injectIfAbsent (ctxMapping cfg.context) "request" (CtxVal.request r)) := by
  obtain ⟨s, rv, ctx, p, g, mw, b, su, hd, ea, dl⟩ := cfg
  cases dl <;>
    cases ctx with
    | none => rfl
    | some cc =>
      cases cc with
      | mapping m => cases m with
        | nil => rfl
        | cons a t => rfl
      | nonMapping t => cases t <;> rfl

lemma ctxMapping_of_not_mapping {x : Option ContextConfig} (h : ctxIsMapping x = false) :
    ctxMapping x = [] := by
  cases x with
  | none => rfl
  | some cc =>
    cases cc with
    | mapping m => simp [ctxIsMapping] at h
    | nonMapping t => rfl

/-- C6: `get_context` starts from the configured context when it is a mapping
(an empty mapping otherwise), injects `request` only when that key is absent,
and, when a dataloader factory is configured, injects its result under
`dataloaders` only when that key is absent — configured keys are never
overwritten. -/
theorem c6_get_context_merge (cfg : GraphQLViewCfg) (r : Request) :
    (∀ m k v, cfg.context = some (ContextConfig.mapping m) → m.lookup k = some v →
      (GraphQLView.get_context cfg r).lookup k = some v) ∧
    ((GraphQLView.get_context cfg r).lookup "request" =
      some (((ctxMapping cfg.context).lookup "request").getD (CtxVal.request r))) ∧
    (∀ fn, cfg.dataloaders_map_fn = some fn →
      (GraphQLView.get_context cfg r).lookup "dataloaders" =
        some (((ctxMapping cfg.context).lookup "dataloaders").getD (fn ()))) ∧
    (cfg.dataloaders_map_fn = Option.none →
      (GraphQLView.get_context cfg r).lookup "dataloaders" =
        (ctxMapping cfg.context).lookup "dataloaders") ∧
    (ctxIsMapping cfg.context = false →
      ∀ k, k ≠ "request" → k ≠ "dataloaders" →
        (GraphQLView.get_context cfg r).lookup k = Option.none) := by
  rw [get_context_eq]
  cases hd : cfg.dataloaders_map_fn with
  | none =>
    refine ⟨?_, ?_, ?_, ?_, ?_⟩
    · intro m k v hc hm
      have hm' : (ctxMapping cfg.context).lookup k = some v := by
        rw [hc]; exact hm
      exact injectIfAbsent_preserve hm' _ _
    · exact injectIfAbsent_lookup_same _ _ _
    · intro fn hfn
      exact absurd hfn (by simp)
    · intro _
      exact injectIfAbsent_lookup_other _ _ _ _ (by decide)
    · intro hnm k hk1 hk2
      rw [injectIfAbsent_lookup_other _ _ _ _ hk1, ctxMapping_of_not_mapping hnm]
      rfl
  | some fn =>
    refine ⟨?_, ?_, ?_, ?_, ?_⟩
    · intro m k v hc hm
      have hm' : (ctxMapping cfg.context).lookup k = some v := by
        rw [hc]; exact hm
      exact injectIfAbsent_preserve (injectIfAbsent_preserve hm' _ _) _ _
    · rw [injectIfAbsent_lookup_other _ _ _ _ (by decide)]
      exact injectIfAbsent_lookup_same _ _ _
    · intro fn2 hfn2
      have hfn : fn2 = fn := (Option.some.inj hfn2).symm
      subst hfn
      rw [injectIfAbsent_lookup_same,
        injectIfAbsent_lookup_other _ _ _ _ (by decide : ("dataloaders" : String) ≠ "request")]
    · intro hno
      exact absurd hno (by simp)
    · intro hnm k hk1 hk2
      rw [injectIfAbsent_lookup_other _ _ _ _ hk2,
        injectIfAbsent_lookup_other _ _ _ _ hk1, ctxMapping_of_not_mapping hnm]
      rfl

/-- A configuration whose context mapping already binds `request` and whose
dataloader factory is set. -/
def cfgCtx : GraphQLViewCfg :=
  GraphQLViewCfg.mk 0 Option.none
    (some (ContextConfig.mapping [("request", CtxVal.user 7)]))
    false false Option.none false Option.none Option.none false
    (some (fun _ => CtxVal.dataloaders 3))

/-- Witness for C6: a configured `request` key survives the merge. -/
theorem c6_witness :
    (GraphQLView.get_context cfgCtx reqPlainPost).lookup "request" = some (CtxVal.user 7) :=
  (c6_get_context_merge cfgCtx reqPlainPost).1 [("request", CtxVal.user 7)] "request"
    (CtxVal.user 7) rfl rfl

/-! ## Characterizing dispatch_request -/

/-- The pretty flag computed at line 115:
`self.pretty or show_graphiql or request.args.get("pretty")`. -/
def prettyFlag (cfg : GraphQLViewCfg) (r : Request) : Bool :=
  cfg.pretty || GraphQLView.show_graphiql cfg r || truthyOptStr (r.args.lookup "pretty")

/-- Proof-side abbreviation: the continuation of `dispatch_request` after a
successful query run delivered `ers` and `ps` for parsed body `data`
(lines 124-154). -/
def dispatchTail (cfg : GraphQLViewCfg) (r : Request) (data : Json)
    (ers : List ExecItem) (ps : List GraphQLParams) :
    Except Uncaught FlaskResponse × List Event :=
  let encoded := encode_execution_results ers data.isArr format_error_default
    (fun v => json_encode v (prettyFlag cfg r))
  let ev1 := [Event.runHttpQueryCall
      (view_run_http_query_args cfg r (lowerStr r.method) data (GraphQLView.show_graphiql cfg r)),
    Event.encodeResultsCall ers data.isArr (prettyFlag cfg r)]
  if GraphQLView.show_graphiql cfg r then
    match ps with
    | [] => (Except.error Uncaught.indexError, ev1)
    | p :: _ =>
        (Except.ok (FlaskResponse.html
          (GraphiQLData.mk encoded.1 p.query p.variables_ p.operation_name
            cfg.subscriptions cfg.headers)), ev1)
  else
    (Except.ok (FlaskResponse.json encoded.1 encoded.2 [] "application/json"), ev1)

lemma dispatch_parse_err (C : Collaborators) (cfg : GraphQLViewCfg) (r : Request)
    (e : HttpQueryError) (hp : GraphQLView.parse_body C r = Except.error e) :
    GraphQLView.dispatch_request C cfg r =
      (Except.ok (httpErrorResponse e), [Event.encodeErrorCall (errorsPayload e) false]) := by
  unfold GraphQLView.dispatch_request
  rw [hp]

lemma dispatch_run_ok (C : Collaborators) (cfg : GraphQLViewCfg) (r : Request)
    (data : Json) (ers : List ExecItem) (ps : List GraphQLParams)
    (hp : GraphQLView.parse_body C r = Except.ok data)
    (hr : C.run_http_query (view_run_http_query_args cfg r (lowerStr r.method) data
      (GraphQLView.show_graphiql cfg r)) = Except.ok (ers, ps)) :
    GraphQLView.dispatch_request C cfg r =
      dispatchTail cfg r data (if cfg.enable_async then ers.map resolveItem else ers) ps := by
  have hsync : GraphQLView.run_http_query C cfg r (lowerStr r.method) data
      (GraphQLView.show_graphiql cfg r) = Except.ok (ers, ps) := hr
  have hasync : GraphQLView.get_async_execution_results C cfg r (lowerStr r.method) data
      (GraphQLView.show_graphiql cfg r) = Except.ok (ers.map resolveItem, ps) := by
    unfold GraphQLView.get_async_execution_results
    rw [hsync]
  cases he : cfg.enable_async with
  | false =>
    simp only [GraphQLView.dispatch_request, hp, he, Bool.false_eq_true, if_false, hsync,
      dispatchTail, prettyFlag, List.cons_append, List.nil_append]
  | true =>
    simp only [GraphQLView.dispatch_request, hp, he, if_true, hasync,
      dispatchTail, prettyFlag, List.cons_append, List.nil_append]

lemma dispatch_run_http_err (C : Collaborators) (cfg : GraphQLViewCfg) (r : Request)
    (data : Json) (e : HttpQueryError)
    (hp : GraphQLView.parse_body C r = Except.ok data)
    (hr : C.run_http_query (view_run_http_query_args cfg r (lowerStr r.method) data
      (GraphQLView.show_graphiql cfg r)) = Except.error (PyErr.http e)) :
    GraphQLView.dispatch_request C cfg r =
      (Except.ok (httpErrorResponse e),
        [Event.runHttpQueryCall (view_run_http_query_args cfg r (lowerStr r.method) data
          (GraphQLView.show_graphiql cfg r)),
         Event.encodeErrorCall (errorsPayload e) false]) := by
  have hsync : GraphQLView.run_http_query C cfg r (lowerStr r.method) data
      (GraphQLView.show_graphiql cfg r) = Except.error (PyErr.http e) := hr
  have hasync : GraphQLView.get_async_execution_results C cfg r (lowerStr r.method) data
      (GraphQLView.show_graphiql cfg r) = Except.error (PyErr.http e) := by
    unfold GraphQLView.get_async_execution_results
    rw [hsync]
  cases he : cfg.enable_async with
  | false =>
    simp only [GraphQLView.dispatch_request, hp, he, Bool.false_eq_true, if_false, hsync,
      List.cons_append, List.nil_append]
  | true =>
    simp only [GraphQLView.dispatch_request, hp, he, if_true, hasync,
      List.cons_append, List.nil_append]

lemma dispatch_run_other_err (C : Collaborators) (cfg : GraphQLViewCfg) (r : Request)
    (data : Json) (t : Nat)
    (hp : GraphQLView.parse_body C r = Except.ok data)
    (hr : C.run_http_query (view_run_http_query_args cfg r (lowerStr r.method) data
      (GraphQLView.show_graphiql cfg r)) = Except.error (PyErr.other t)) :
    GraphQLView.dispatch_request C cfg r =
      (Except.error (Uncaught.other t),
        [Event.runHttpQueryCall (view_run_http_query_args cfg r (lowerStr r.method) data
          (GraphQLView.show_graphiql cfg r))]) := by
  have hsync : GraphQLView.run_http_query C cfg r (lowerStr r.method) data
      (GraphQLView.show_graphiql cfg r) = Except.error (PyErr.other t) := hr
  have hasync : GraphQLView.get_async_execution_results C cfg r (lowerStr r.method) data
      (GraphQLView.show_graphiql cfg r) = Except.error (PyErr.other t) := by
    unfold GraphQLView.get_async_execution_results
    rw [hsync]
  cases he : cfg.enable_async with
  | false =>
    simp only [GraphQLView.dispatch_request, hp, he, Bool.false_eq_true, if_false, hsync,
      List.cons_append, List.nil_append]
  | true =>
    simp only [GraphQLView.dispatch_request, hp, he, if_true, hasync,
      List.cons_append, List.nil_append]

lemma dispatchTail_snd (cfg : GraphQLViewCfg) (r : Request) (data : Json)
    (ers : List ExecItem) (ps : List GraphQLParams) :
    (dispatchTail cfg r data ers ps).2 =
      [Event.runHttpQueryCall (view_run_http_query_args cfg r (lowerStr r.method) data
        (GraphQLView.show_graphiql cfg r)),
       Event.encodeResultsCall ers data.isArr (prettyFlag cfg r)] := by
  unfold dispatchTail
  cases hsg : GraphQLView.show_graphiql cfg r with
  | false => simp
  | true => cases ps <;> simp

lemma dispatchTail_fst_json (cfg : GraphQLViewCfg) (r : Request) (data : Json)
    (ers : List ExecItem) (ps : List GraphQLParams)
    (hsg : GraphQLView.show_graphiql cfg r = false) :
    (dispatchTail cfg r data ers ps).1 =
      Except.ok (FlaskResponse.json
        (encode_execution_results ers data.isArr format_error_default
          (fun v => json_encode v (prettyFlag cfg r))).1
        (encode_execution_results ers data.isArr format_error_default
          (fun v => json_encode v (prettyFlag cfg r))).2 [] "application/json") := by
  unfold dispatchTail
  simp [hsg]

lemma dispatchTail_fst_html (cfg : GraphQLViewCfg) (r : Request) (data : Json)
    (ers : List ExecItem) (p : GraphQLParams) (l : List GraphQLParams)
    (hsg : GraphQLView.show_graphiql cfg r = true) :
    (dispatchTail cfg r data ers (p :: l)).1 =
      Except.ok (FlaskResponse.html
        (GraphiQLData.mk
          (encode_execution_results ers data.isArr format_error_default
            (fun v => json_encode v (prettyFlag cfg r))).1
          p.query p.variables_ p.operation_name cfg.subscriptions cfg.headers)) := by
  unfold dispatchTail
  simp [hsg]

lemma encode_execution_results_batch_isArr (results : List ExecItem)
    (format_error : GraphQLError → Json) (pretty : Bool) :
    ((encode_execution_results results true format_error
      (fun v => json_encode v pretty)).1).value.isArr = true := by
  simp [encode_execution_results, json_encode, Json.isArr]

/-- C2: the GraphiQL path is selected exactly when the method is GET
(case-insensitively), the `graphiql` flag is enabled, no `raw` query parameter
is present, and content negotiation strictly prefers HTML; a request carrying
a `raw` parameter never receives the HTML page. -/
theorem c2_graphiql_path_selection (C : Collaborators) (cfg : GraphQLViewCfg) (r : Request) :
    (GraphQLView.show_graphiql cfg r = true ↔
      ((lowerStr r.method) = "get" ∧ cfg.graphiql = true ∧ r.args.lookup "raw" = Option.none ∧
        GraphQLView.request_wants_html r = true)) ∧
    (∀ resp, (GraphQLView.dispatch_request C cfg r).1 = Except.ok resp →
      resp.isHtml = true → GraphQLView.show_graphiql cfg r = true) ∧
    (∀ data ers ps, GraphQLView.parse_body C r = Except.ok data →
      C.run_http_query (view_run_http_query_args cfg r (lowerStr r.method) data
        (GraphQLView.show_graphiql cfg r)) = Except.ok (ers, ps) →
      ps ≠ [] →
      ∃ resp, (GraphQLView.dispatch_request C cfg r).1 = Except.ok resp ∧
        resp.isHtml = GraphQLView.show_graphiql cfg r) ∧
    (∀ resp, (r.args.lookup "raw").isSome = true →
      (GraphQLView.dispatch_request C cfg r).1 = Except.ok resp →
      resp.isHtml = false) := by
  have h1 : GraphQLView.show_graphiql cfg r = true ↔
      ((lowerStr r.method) = "get" ∧ cfg.graphiql = true ∧ r.args.lookup "raw" = Option.none ∧
        GraphQLView.request_wants_html r = true) := by
    unfold GraphQLView.show_graphiql GraphQLView.should_display_graphiql
    cases hg : cfg.graphiql with
    | false => simp
    | true =>
      cases hraw : r.args.lookup "raw" with
      | some v => simp [hraw]
      | none => simp [hraw]
  have h2 : ∀ resp, (GraphQLView.dispatch_request C cfg r).1 = Except.ok resp →
      resp.isHtml = true → GraphQLView.show_graphiql cfg r = true := by
    intro resp hok hhtml
    cases hp : GraphQLView.parse_body C r with
    | error e =>
      rw [dispatch_parse_err C cfg r e hp] at hok
      have hresp : resp = httpErrorResponse e := (Except.ok.inj hok).symm
      rw [hresp] at hhtml
      simp [httpErrorResponse, FlaskResponse.isHtml] at hhtml
    | ok data =>
      cases hr : C.run_http_query (view_run_http_query_args cfg r (lowerStr r.method) data
          (GraphQLView.show_graphiql cfg r)) with
      | error pe =>
        cases pe with
        | http e =>
          rw [dispatch_run_http_err C cfg r data e hp hr] at hok
          have hresp : resp = httpErrorResponse e := (Except.ok.inj hok).symm
          rw [hresp] at hhtml
          simp [httpErrorResponse, FlaskResponse.isHtml] at hhtml
        | other t =>
          rw [dispatch_run_other_err C cfg r data t hp hr] at hok
          exact absurd hok (by simp)
      | ok pair =>
        rcases pair with ⟨ers, ps⟩
        rw [dispatch_run_ok C cfg r data ers ps hp hr] at hok
        cases hsg : GraphQLView.show_graphiql cfg r with
        | true => rfl
        | false =>
          rw [dispatchTail_fst_json cfg r data _ ps hsg] at hok
          have hresp := (Except.ok.inj hok).symm
          rw [hresp] at hhtml
          simp [FlaskResponse.isHtml] at hhtml
  have h3 : ∀ data ers ps, GraphQLView.parse_body C r = Except.ok data →
      C.run_http_query (view_run_http_query_args cfg r (lowerStr r.method) data
        (GraphQLView.show_graphiql cfg r)) = Except.ok (ers, ps) →
      ps ≠ [] →
      ∃ resp, (GraphQLView.dispatch_request C cfg r).1 = Except.ok resp ∧
        resp.isHtml = GraphQLView.show_graphiql cfg r := by
    intro data ers ps hp hr hps
    rw [dispatch_run_ok C cfg r data ers ps hp hr]
    cases hsg : GraphQLView.show_graphiql cfg r with
    | false =>
      exact ⟨_, dispatchTail_fst_json cfg r data _ ps hsg, by simp [FlaskResponse.isHtml]⟩
    | true =>
      cases ps with
      | nil => exact absurd rfl hps
      | cons p l =>
        exact ⟨_, dispatchTail_fst_html cfg r data _ p l hsg, by simp [FlaskResponse.isHtml]⟩
  refine ⟨h1, h2, h3, ?_⟩
  intro resp hraw hok
  cases hhtml : resp.isHtml with
  | false => rfl
  | true =>
    have hflag := h2 resp hok hhtml
    rcases h1.mp hflag with ⟨-, -, hnone, -⟩
    rw [hnone] at hraw
    exact absurd hraw (by simp)

/-- A configuration with GraphiQL enabled. -/
def cfgHtml : GraphQLViewCfg :=
  GraphQLViewCfg.mk 0 Option.none Option.none false true Option.none false
    Option.none Option.none false Option.none

/-- A GET request whose Accept header strictly prefers HTML and that carries
no query parameters. -/
def reqGetHtml : Request :=
  Request.mk "GET" "" "" [] [] acceptHtml

/-- Witness for C2: with GraphiQL enabled, a GET request strictly preferring
HTML and no `raw` parameter, a successful run yields the HTML path. -/
theorem c2_witness :
    ∃ resp, (GraphQLView.dispatch_request collabOne cfgHtml reqGetHtml).1 = Except.ok resp ∧
      resp.isHtml = GraphQLView.show_graphiql cfgHtml reqGetHtml :=
  (c2_graphiql_path_selection collabOne cfgHtml reqGetHtml).2.2.1 (Json.obj [])
    [ExecItem.result (ExecutionResult.mk Json.null [])]
    [GraphQLParams.mk (some "{ hello }") Option.none Option.none]
    rfl rfl (List.cons_ne_nil _ _)

/-- A base configuration with every flag off. -/
def cfg0 : GraphQLViewCfg :=
  GraphQLViewCfg.mk 0 Option.none Option.none false false Option.none false
    Option.none Option.none false Option.none

/-- Collaborators whose JSON decoder always fails with a 400 error. -/
def collabBadJson : Collaborators :=
  Collaborators.mk (fun _ => Except.error (HttpQueryError.mk "Bad JSON" 400 []))
    (fun _ => Except.ok ([], []))

/-- A POST request declaring `application/json` with a malformed body. -/
def reqBadJson : Request :=
  Request.mk "POST" "application/json" "not json" [] [] acceptNone

/-- C3: `HttpQueryError` is the only exception `dispatch_request` recovers
from: a structured error raised while parsing the body or running the query
yields a JSON response with exactly one formatted error object under the
`errors` key and the status code and headers of the raised error; any other
exception propagates uncaught. -/
theorem c3_http_query_error_recovery (C : Collaborators) (cfg : GraphQLViewCfg) (r : Request) :
    (∀ e, r.mimetype = "application/json" → C.load_json_body r.data = Except.error e →
      (GraphQLView.dispatch_request C cfg r).1 =
        Except.ok (FlaskResponse.json
          (SText.mk (Json.obj [("errors",
            Json.arr [Json.obj [("message", Json.str e.message)]])]) false)
          e.status_code e.headers "application/json")) ∧
    (∀ data e, GraphQLView.parse_body C r = Except.ok data →
      C.run_http_query (view_run_http_query_args cfg r (lowerStr r.method) data
        (GraphQLView.show_graphiql cfg r)) = Except.error (PyErr.http e) →
      (GraphQLView.dispatch_request C cfg r).1 =
        Except.ok (FlaskResponse.json
          (SText.mk (Json.obj [("errors",
            Json.arr [Json.obj [("message", Json.str e.message)]])]) false)
          e.status_code e.headers "application/json")) ∧
    (∀ data t, GraphQLView.parse_body C r = Except.ok data →
      C.run_http_query (view_run_http_query_args cfg r (lowerStr r.method) data
        (GraphQLView.show_graphiql cfg r)) = Except.error (PyErr.other t) →
      (GraphQLView.dispatch_request C cfg r).1 = Except.error (Uncaught.other t)) := by
  refine ⟨?_, ?_, ?_⟩
  · intro e hct hload
    have hp : GraphQLView.parse_body C r = Except.error e := by
      unfold GraphQLView.parse_body
      rw [hct]
      simp [hload]
    rw [dispatch_parse_err C cfg r e hp]
    rfl
  · intro data e hp hr
    rw [dispatch_run_http_err C cfg r data e hp hr]
    rfl
  · intro data t hp hr
    rw [dispatch_run_other_err C cfg r data t hp hr]

/-- Witness for C3: a malformed JSON body yields the single-error 400 JSON
response of the raised structured error. -/
theorem c3_witness :
    (GraphQLView.dispatch_request collabBadJson cfg0 reqBadJson).1 =
      Except.ok (FlaskResponse.json
        (SText.mk (Json.obj [("errors",
          Json.arr [Json.obj [("message", Json.str "Bad JSON")]])]) false)
        400 [] "application/json") :=
  (c3_http_query_error_recovery collabBadJson cfg0 reqBadJson).1
    (HttpQueryError.mk "Bad JSON" 400 []) rfl rfl

/-- C7: the batch flag handed to the response encoder is set exactly when the
parsed body is a JSON array; with an array body (of any length, including
zero) and the JSON path, the response body is a JSON array, never a bare
object. -/
theorem c7_batch_flag (C : Collaborators) (cfg : GraphQLViewCfg) (r : Request)
    (data : Json) (hp : GraphQLView.parse_body C r = Except.ok data) :
    (∀ rs b p, Event.encodeResultsCall rs b p ∈ (GraphQLView.dispatch_request C cfg r).2 →
      b = data.isArr) ∧
    (∀ ers ps, data.isArr = true →
      C.run_http_query (view_run_http_query_args cfg r (lowerStr r.method) data
        (GraphQLView.show_graphiql cfg r)) = Except.ok (ers, ps) →
      GraphQLView.show_graphiql cfg r = false →
      ∃ st status, (GraphQLView.dispatch_request C cfg r).1 =
          Except.ok (FlaskResponse.json st status [] "application/json") ∧
        st.value.isArr = true) := by
  constructor
  · intro rs b p hm
    cases hr : C.run_http_query (view_run_http_query_args cfg r (lowerStr r.method) data
        (GraphQLView.show_graphiql cfg r)) with
    | error pe =>
      cases pe with
      | http e =>
        rw [dispatch_run_http_err C cfg r data e hp hr] at hm
        simp [List.mem_cons] at hm
      | other t =>
        rw [dispatch_run_other_err C cfg r data t hp hr] at hm
        simp [List.mem_cons] at hm
    | ok pair =>
      rcases pair with ⟨ers, ps⟩
      rw [dispatch_run_ok C cfg r data ers ps hp hr, dispatchTail_snd] at hm
      rcases List.mem_cons.mp hm with h | h
      · exact absurd h (by simp)
      · rcases List.mem_singleton.mp h with h2
        injection h2 with h3 h4 h5
  · intro ers ps hb hr hsg
    rw [dispatch_run_ok C cfg r data ers ps hp hr]
    refine ⟨_, _, dispatchTail_fst_json cfg r data _ ps hsg, ?_⟩
    rw [hb]
    exact encode_execution_results_batch_isArr _ _ _

/-- Collaborators whose JSON decoder yields an empty array (a zero-element
batch) and whose runner returns no results. -/
def collabEmptyBatch : Collaborators :=
  Collaborators.mk (fun _ => Except.ok (Json.arr []))
    (fun _ => Except.ok ([], []))

/-- A POST request declaring `application/json` whose body is `[]`. -/
def reqJsonArr : Request :=
  Request.mk "POST" "application/json" "[]" [] [] acceptNone

/-- Witness for C7: a zero-element batch still yields an array-shaped
response body. -/
theorem c7_witness :
    ∃ st status, (GraphQLView.dispatch_request collabEmptyBatch cfg0 reqJsonArr).1 =
        Except.ok (FlaskResponse.json st status [] "application/json") ∧
      st.value.isArr = true :=
  (c7_batch_flag collabEmptyBatch cfg0 reqJsonArr (Json.arr []) rfl).2 [] [] rfl rfl rfl

/-- C8: the pretty-print flag used when encoding execution results is true
exactly when pretty is configured globally, or the GraphiQL path is selected,
or the query string carries a truthy `pretty` parameter. -/
theorem c8_pretty_flag (C : Collaborators) (cfg : GraphQLViewCfg) (r : Request) :
    ∀ rs b p, Event.encodeResultsCall rs b p ∈ (GraphQLView.dispatch_request C cfg r).2 →
      p = (cfg.pretty || GraphQLView.show_graphiql cfg r ||
        truthyOptStr (r.args.lookup "pretty")) := by
  intro rs b p hm
  cases hp : GraphQLView.parse_body C r with
  | error e =>
    rw [dispatch_parse_err C cfg r e hp] at hm
    simp [List.mem_cons] at hm
  | ok data =>
    cases hr : C.run_http_query (view_run_http_query_args cfg r (lowerStr r.method) data
        (GraphQLView.show_graphiql cfg r)) with
    | error pe =>
      cases pe with
      | http e =>
        rw [dispatch_run_http_err C cfg r data e hp hr] at hm
        simp [List.mem_cons] at hm
      | other t =>
        rw [dispatch_run_other_err C cfg r data t hp hr] at hm
        simp [List.mem_cons] at hm
    | ok pair =>
      rcases pair with ⟨ers, ps⟩
      rw [dispatch_run_ok C cfg r data ers ps hp hr, dispatchTail_snd] at hm
      rcases List.mem_cons.mp hm with h | h
      · exact absurd h (by simp)
      · rcases List.mem_singleton.mp h with h2
        injection h2 with h3 h4 h5

/-- A POST request with `pretty=1` in the query string and an unrecognized
content type. -/
def reqPretty : Request :=
  Request.mk "POST" "" "" [] [("pretty", "1")] acceptNone

/-- Witness for C8: with `pretty=1` and neither global pretty nor GraphiQL,
the encoder is called with the pretty flag on. -/
theorem c8_witness :
    (true : Bool) = (cfg0.pretty || GraphQLView.show_graphiql cfg0 reqPretty ||
      truthyOptStr (reqPretty.args.lookup "pretty")) := by
  refine c8_pretty_flag collabOne cfg0 reqPretty
    [ExecItem.result (ExecutionResult.mk Json.null [])] false true ?_
  have h : (GraphQLView.dispatch_request collabOne cfg0 reqPretty).2 =
      [Event.runHttpQueryCall (view_run_http_query_args cfg0 reqPretty "post" (Json.obj [])
        (GraphQLView.show_graphiql cfg0 reqPretty)),
       Event.encodeResultsCall [ExecItem.result (ExecutionResult.mk Json.null [])]
        false true] := rfl
  rw [h]
  exact List.mem_cons_of_mem _ (List.mem_cons_self _ _)

/-- C9: the catch flag passed to the query-running function equals the
GraphiQL-path selection flag: errors are caught and rendered inline exactly
when the interactive tool is shown. -/
theorem c9_catch_iff_graphiql (C : Collaborators) (cfg : GraphQLViewCfg) (r : Request) :
    ∀ a, Event.runHttpQueryCall a ∈ (GraphQLView.dispatch_request C cfg r).2 →
      a.catch_errors = GraphQLView.show_graphiql cfg r := by
  intro a hm
  cases hp : GraphQLView.parse_body C r with
  | error e =>
    rw [dispatch_parse_err C cfg r e hp] at hm
    simp [List.mem_cons] at hm
  | ok data =>
    cases hr : C.run_http_query (view_run_http_query_args cfg r (lowerStr r.method) data
        (GraphQLView.show_graphiql cfg r)) with
    | error pe =>
      cases pe with
      | http e =>
        rw [dispatch_run_http_err C cfg r data e hp hr] at hm
        rcases List.mem_cons.mp hm with h | h
        · injection h with h2
          rw [h2]
          rfl
        · exact absurd (List.mem_singleton.mp h) (by simp)
      | other t =>
        rw [dispatch_run_other_err C cfg r data t hp hr] at hm
        rcases List.mem_singleton.mp hm with h
        injection h with h2
        rw [h2]
        rfl
    | ok pair =>
      rcases pair with ⟨ers, ps⟩
      rw [dispatch_run_ok C cfg r data ers ps hp hr, dispatchTail_snd] at hm
      rcases List.mem_cons.mp hm with h | h
      · injection h with h2
        rw [h2]
        rfl
      · exact absurd (List.mem_singleton.mp h) (by simp)

/-- Witness for C9 at a concrete request: the recorded run call carries the
catch flag equal to the GraphiQL selection flag. -/
theorem c9_witness :
    (view_run_http_query_args cfg0 reqPlainPost "post" (Json.obj [])
      (GraphQLView.show_graphiql cfg0 reqPlainPost)).catch_errors =
      GraphQLView.show_graphiql cfg0 reqPlainPost := by
  refine c9_catch_iff_graphiql collabOne cfg0 reqPlainPost _ ?_
  have h : (GraphQLView.dispatch_request collabOne cfg0 reqPlainPost).2 =
      [Event.runHttpQueryCall (view_run_http_query_args cfg0 reqPlainPost "post" (Json.obj [])
        (GraphQLView.show_graphiql cfg0 reqPlainPost)),
       Event.encodeResultsCall [ExecItem.result (ExecutionResult.mk Json.null [])]
        false false] := rfl
  rw [h]
  exact List.mem_cons_self _ _

/-- C10: the error response produced when an `HttpQueryError` is caught is
encoded without the per-request pretty flag: its body uses the encoder's
default non-pretty serialization for every request and configuration. -/
theorem c10_error_response_default_encoding (C : Collaborators) (cfg : GraphQLViewCfg)
    (r : Request) :
    (∀ payload p, Event.encodeErrorCall payload p ∈ (GraphQLView.dispatch_request C cfg r).2 →
      p = false) ∧
    (∀ e, GraphQLView.parse_body C r = Except.error e →
      ∃ st, (GraphQLView.dispatch_request C cfg r).1 =
          Except.ok (FlaskResponse.json st e.status_code e.headers "application/json") ∧
        st.pretty = false) ∧
    (∀ data e, GraphQLView.parse_body C r = Except.ok data →
      C.run_http_query (view_run_http_query_args cfg r (lowerStr r.method) data
        (GraphQLView.show_graphiql cfg r)) = Except.error (PyErr.http e) →
      ∃ st, (GraphQLView.dispatch_request C cfg r).1 =
          Except.ok (FlaskResponse.json st e.status_code e.headers "application/json") ∧
        st.pretty = false) := by
  refine ⟨?_, ?_, ?_⟩
  · intro payload p hm
    cases hp : GraphQLView.parse_body C r with
    | error e =>
      rw [dispatch_parse_err C cfg r e hp] at hm
      rcases List.mem_singleton.mp hm with h
      injection h with h2 h3
    | ok data =>
      cases hr : C.run_http_query (view_run_http_query_args cfg r (lowerStr r.method) data
          (GraphQLView.show_graphiql cfg r)) with
      | error pe =>
        cases pe with
        | http e =>
          rw [dispatch_run_http_err C cfg r data e hp hr] at hm
          rcases List.mem_cons.mp hm with h | h
          · exact absurd h (by simp)
          · rcases List.mem_singleton.mp h with h2
            injection h2 with h3 h4
        | other t =>
          rw [dispatch_run_other_err C cfg r data t hp hr] at hm
          exact absurd (List.mem_singleton.mp hm) (by simp)
      | ok pair =>
        rcases pair with ⟨ers, ps⟩
        rw [dispatch_run_ok C cfg r data ers ps hp hr, dispatchTail_snd] at hm
        rcases List.mem_cons.mp hm with h | h
        · exact absurd h (by simp)
        · exact absurd (List.mem_singleton.mp h) (by simp)
  · intro e hp
    rw [dispatch_parse_err C cfg r e hp]
    exact ⟨json_encode (errorsPayload e) false, rfl, rfl⟩
  · intro data e hp hr
    rw [dispatch_run_http_err C cfg r data e hp hr]
    exact ⟨json_encode (errorsPayload e) false, rfl, rfl⟩

/-- A configuration with global pretty printing enabled. -/
def cfgPrettyOn : GraphQLViewCfg :=
  GraphQLViewCfg.mk 0 Option.none Option.none true false Option.none false
    Option.none Option.none false Option.none

/-- Witness for C10: even with global pretty on, a malformed JSON body yields
an error response encoded with the default non-pretty flag. -/
theorem c10_witness :
    ∃ st, (GraphQLView.dispatch_request collabBadJson cfgPrettyOn reqBadJson).1 =
        Except.ok (FlaskResponse.json st 400 [] "application/json") ∧
      st.pretty = false :=
  (c10_error_response_default_encoding collabBadJson cfgPrettyOn reqBadJson).2.1
    (HttpQueryError.mk "Bad JSON" 400 []) rfl
